import Mathlib

/-!
Formal model of the JIRA ticket-similarity engine
(`jira_similarity_tool.py`): text normalization, keyword and subject-term
extraction, the weighted similarity score, and the candidate pipeline of
`JIRASimilarityTool.analyze_similarity` (deduplication, subject-overlap
gate, scoring, thresholding, sorting, truncation and the one-shot
threshold-relaxation fallback).

Numbers are modelled with `ℚ` (the Python floats are treated as exact
decimal arithmetic), strings with Lean `String` over their character
lists.  Network access is abstracted: the pipeline is modelled from the
point where the tickets collected across all planned search queries are
available as a list.
-/

/-- Python `str.lower()` (ASCII case folding, as used on ticket text). -/
def lowerStr (s : String) : String := String.mk (s.data.map Char.toLower)

/-- Split off the longest leading run of non-whitespace characters:
returns (word, rest).  Helper for Python `str.split()`. -/
def wordAndRest : List Char → List Char × List Char
  | [] => ([], [])
  | c :: rest =>
    if c.isWhitespace then ([], c :: rest)
    else ((c :: (wordAndRest rest).1), (wordAndRest rest).2)

/-- Python `str.split()` with no separator: split on runs of whitespace,
dropping empty chunks. -/
def splitChunks : List Char → List (List Char)
  | [] => []
  | c :: rest =>
    if c.isWhitespace then splitChunks rest
    else (c :: (wordAndRest rest).1) :: splitChunks (wordAndRest rest).2
termination_by l => l.length
decreasing_by
  · simp
  · have bound : ∀ l : List Char, (wordAndRest l).2.length ≤ l.length := by
      intro l
      induction l with
      | nil => simp [wordAndRest]
      | cons d ds ih =>
        simp only [wordAndRest]
        split
        · simp
        · simpa using Nat.le_succ_of_le ih
    have := bound rest
    simp only [List.length_cons]
    omega

/-- Join word chunks with single spaces (Python `' '.join(...)`). -/
def joinSpaces : List (List Char) → List Char
  | [] => []
  | [w] => w
  | w :: ws => w ++ ' ' :: joinSpaces ws

/-- Python `str.split()` on a `String`, producing `String` tokens. -/
def pySplit (s : String) : List String := (splitChunks s.data).map String.mk

/-- Python substring test `pat in hay` on character lists. -/
def infixOf (pat : List Char) : List Char → Bool
  | [] => pat.isEmpty
  | c :: rest => pat.isPrefixOf (c :: rest) || infixOf pat rest

/-- Python substring test `needle in hay` on strings. -/
def strContainsSub (hay needle : String) : Bool := infixOf needle.data hay.data

/-- Python `str.find`: index (in characters) of the first occurrence of
`pat`, or `none` when absent. -/
def findSub (pat : List Char) : List Char → Option Nat
  | [] => if pat.isEmpty then some 0 else none
  | c :: rest =>
    if pat.isPrefixOf (c :: rest) then some 0
    else (findSub pat rest).map (· + 1)

/-- Python `str.replace pat rep`: replace every non-overlapping occurrence
of `pat`, scanning left to right (the replacement is not rescanned). -/
def replaceAll (pat rep : List Char) : List Char → List Char
  | [] => []
  | c :: rest =>
    if (!pat.isEmpty) && pat.isPrefixOf (c :: rest) then
      rep ++ replaceAll pat rep (List.drop (pat.length - 1) rest)
    else
      c :: replaceAll pat rep rest
termination_by l => l.length
decreasing_by
  · simp only [List.length_cons, List.length_drop]
    omega
  · simp

/-- The generic status/problem phrases stripped by
`SimilarityAnalyzer.preprocess_text` (in source order). -/
def genericPhrases : List String :=
  ["not functioning", "not working", "as expected", "unexpected", "issue with",
   "error occurred", "failed", "failure", "failing", "throws error", "showing error"]

/-- Characters kept by the `re.sub(r"[^\w\s-]", " ", text)` step:
word characters, whitespace and hyphens. -/
def keepChar (c : Char) : Bool := c.isAlphanum || c == '_' || c.isWhitespace || c == '-'

/-- `SimilarityAnalyzer.preprocess_text`: lowercase, strip the generic
phrases, replace other punctuation by spaces, collapse whitespace. -/
def preprocess_text (text : String) : String :=
  if text = "" then ""
  else
    let t1 := text.data.map Char.toLower
    let t2 := genericPhrases.foldl (fun acc ph => replaceAll ph.data [' '] acc) t1
    let t3 := t2.map (fun c => if keepChar c then c else ' ')
    String.mk (joinSpaces (splitChunks t3))
def stopWords : List String :=
  [
   "the", "a", "an", "and", "or", "but",
   "in", "on", "at", "to", "for", "of",
   "with", "by", "is", "are", "was", "were",
   "be", "been", "being", "have", "has", "had",
   "do", "does", "did", "will", "would", "could",
   "should", "may", "might", "must", "can", "this",
   "that", "these", "those", "from", "up", "about",
   "into", "through", "during", "before", "after", "above",
   "below", "out", "off", "over", "under", "again",
   "further", "then", "once", "here", "there", "when",
   "where", "why", "how", "all", "any", "both",
   "each", "few", "more", "most", "other", "some",
   "such", "no", "nor", "not", "only", "own",
   "same", "so", "than", "too", "very", "you",
   "your", "yours", "yourself", "yourselves", "i", "me",
   "my", "myself", "we", "our", "ours", "ourselves",
   "what", "which", "who", "whom", "this", "that",
   "these", "those", "am", "is", "are", "was",
   "were", "be", "been", "being", "have", "has",
   "had", "having", "do", "does", "did", "doing",
   "will", "would", "should", "could", "may", "might",
   "must", "shall", "ticket", "issue", "bug", "feature",
   "story", "task", "epic", "incident", "request", "problem",
   "error", "failure", "broken", "fixed", "resolved", "closed",
   "open", "pending", "in progress", "done", "blocked", "ready",
   "test", "testing", "deploy", "deployment", "release", "version",
   "build", "code", "codebase", "repository", "branch", "merge",
   "commit", "push", "pull", "request", "review", "approve",
   "reject", "comment", "update", "create", "delete", "modify",
   "change", "add", "remove", "implement", "develop", "design",
   "plan", "document", "documentation", "user", "customer", "client",
   "team", "developer", "tester", "analyst", "manager", "admin"
  ]

def technicalTerms : List String :=
  [
   "api", "database", "server", "client", "frontend", "backend",
   "ui", "ux", "authentication", "authorization", "login", "logout",
   "session", "token", "password", "encryption", "security", "ssl",
   "https", "http", "rest", "json", "xml", "sql",
   "query", "database", "table", "index", "cache", "memory",
   "cpu", "disk", "network", "connection", "timeout", "error",
   "exception", "crash", "hang", "freeze", "slow", "performance",
   "latency", "throughput", "bandwidth", "load", "stress", "test",
   "unit", "integration", "deployment", "production", "staging", "development",
   "environment", "configuration", "setting", "parameter", "variable", "function",
   "method", "class", "object", "interface", "module", "component",
   "service", "library", "framework", "plugin", "extension", "addon",
   "widget", "button", "form", "input", "output", "data",
   "file", "upload", "download", "import", "export", "sync",
   "async", "thread", "process", "job", "task", "queue",
   "message", "event", "trigger", "callback", "hook", "webhook",
   "notification", "alert", "log", "logging", "monitor", "dashboard",
   "report", "analytics", "metric", "statistic", "chart", "graph",
   "visualization", "display", "render", "browser", "mobile", "desktop",
   "app", "application", "website", "web", "cloud", "aws",
   "azure", "gcp", "docker", "container", "kubernetes", "microservice",
   "monolith", "architecture", "pattern", "design", "model", "conversational",
   "chatbot", "bot", "nlp", "natural", "language", "processing",
   "intent", "entity", "utterance", "response", "dialog", "conversation",
   "chat", "voice", "speech", "recognition", "asr", "tts",
   "text", "speech", "synthesis", "validation", "testing", "test",
   "scenario", "flow", "workflow", "pipeline", "training", "model",
   "ai", "machine", "learning", "ml", "algorithm", "confidence",
   "accuracy", "precision", "recall", "f1", "score", "false",
   "positive", "negative", "true", "positive", "negative", "threshold",
   "sensitivity", "specificity", "roc", "auc", "curve", "dataset",
   "training", "validation", "test", "split", "cross", "fold",
   "overfitting", "underfitting", "bias", "variance", "regularization", "feature",
   "engineering", "preprocessing", "normalization", "standardization", "tokenization", "lemmatization",
   "stemming", "stop", "words", "n-gram", "bag", "words",
   "tfidf", "word2vec", "glove", "bert", "transformer", "attention",
   "mechanism", "encoder", "decoder", "sequence", "model", "recurrent",
   "neural", "network", "rnn", "lstm", "gru", "cnn",
   "convolutional", "neural", "network", "deep", "learning", "neural",
   "network", "supervised", "unsupervised", "semi", "supervised", "reinforcement",
   "learning", "clustering", "classification", "regression", "prediction", "forecasting",
   "anomaly", "detection", "outlier", "detection", "pattern", "recognition",
   "computer", "vision", "image", "processing", "object", "detection",
   "segmentation", "recognition", "face", "detection", "optical", "character",
   "ocr", "text", "extraction", "document", "processing", "information",
   "retrieval", "search", "engine", "indexing", "ranking", "relevance",
   "similarity", "recommendation", "system", "collaborative", "filtering", "content",
   "based", "hybrid", "recommendation", "personalization", "customization", "adaptation",
   "context", "aware", "situational", "awareness", "environmental", "context",
   "user", "profile", "preference", "behavior", "interaction", "engagement",
   "retention", "conversion", "churn", "lifetime", "value", "ltv",
   "roi", "kpi", "metric", "analytics", "insight", "dashboard",
   "reporting", "real", "time", "streaming", "batch", "processing",
   "data", "pipeline", "etl", "extract", "transform", "load",
   "data", "warehouse", "lake", "big", "data", "distributed",
   "computing", "mapreduce", "hadoop", "spark", "kafka", "stream",
   "processing", "event", "driven", "architecture", "microservices", "api",
   "gateway", "service", "mesh", "load", "balancer", "circuit",
   "breaker", "retry", "mechanism", "fallback", "graceful", "degradation",
   "fault", "tolerance", "high", "availability", "scalability", "performance",
   "optimization", "caching", "database", "sharding", "partitioning", "replication",
   "backup", "recovery", "disaster", "recovery", "business", "continuity",
   "security", "authentication", "authorization", "encryption", "privacy", "gdpr",
   "compliance", "audit", "logging", "monitoring", "alerting", "devops",
   "ci", "cd", "continuous", "integration", "deployment", "containerization",
   "orchestration", "kubernetes", "docker", "swarm", "infrastructure", "as",
   "code", "terraform", "ansible", "chef", "puppet", "cloud",
   "native", "serverless", "function", "lambda", "edge", "computing",
   "edge", "computing", "fog", "computing", "distributed", "systems",
   "distributed", "databases", "nosql", "mongodb", "cassandra", "redis",
   "elasticsearch", "solr", "lucene", "inverted", "index", "full",
   "text", "search", "graph", "database", "neo4j", "graphql",
   "query", "language", "schema", "api", "design", "rest",
   "graphql", "soap", "grpc", "protocol", "buffers", "serialization",
   "deserialization", "marshalling", "unmarshalling", "message", "queue", "rabbitmq",
   "activemq", "kafka", "pub", "sub", "event", "sourcing",
   "cqrs", "command", "query", "responsibility", "segregation", "domain",
   "driven", "design", "ddd", "bounded", "context", "aggregate",
   "entity", "value", "object", "repository", "pattern", "factory",
   "pattern", "strategy", "pattern", "observer", "pattern", "decorator",
   "pattern", "adapter", "pattern", "facade", "pattern", "proxy",
   "pattern", "singleton", "pattern", "builder", "pattern", "template",
   "method", "pattern", "state", "pattern", "command", "pattern",
   "chain", "responsibility", "pattern", "interpreter", "pattern", "iterator",
   "pattern", "mediator", "pattern", "memento", "pattern", "flyweight",
   "pattern", "abstract", "factory", "pattern", "bridge", "pattern",
   "composite", "pattern", "decorator", "pattern", "facade", "pattern",
   "flyweight", "pattern", "proxy", "pattern", "chain", "responsibility",
   "pattern", "command", "pattern", "interpreter", "pattern", "iterator",
   "pattern", "mediator", "pattern", "memento", "pattern", "observer",
   "pattern", "state", "pattern", "strategy", "pattern", "template",
   "method", "pattern", "visitor", "pattern", "abstract", "factory",
   "pattern", "builder", "pattern", "factory", "method", "pattern",
   "prototype", "pattern", "singleton", "pattern", "adapter", "pattern",
   "bridge", "pattern", "composite", "pattern", "decorator", "pattern",
   "facade", "pattern", "flyweight", "pattern", "proxy", "pattern",
   "chain", "responsibility", "pattern", "command", "pattern", "interpreter",
   "pattern", "iterator", "pattern", "mediator", "pattern", "memento",
   "pattern", "observer", "pattern", "state", "pattern", "strategy",
   "pattern", "template", "method", "pattern", "visitor", "pattern"
  ]

def headTerms : List String :=
  [
   "node", "flag", "field", "feature", "event", "function",
   "handler", "endpoint", "api", "parameter", "property", "setting",
   "toggle", "connector", "channel", "task", "job", "queue",
   "session", "token", "key", "header", "intent", "entity",
   "language", "locale", "analytics", "dashboard", "report", "metric",
   "filter", "log", "usage", "userid", "summary", "console",
   "import", "migration", "genai", "llm", "openai", "gpt",
   "dialoggpt", "searchai", "websdk"
  ]

def subjectPhrases : List String :=
  [
   "goal completion rate", "performance dashboard", "user id filter",
   "userid filter", "usage logs", "gen ai node",
   "dialog gpt", "openai connector", "admin console",
   "full bot import"
  ]

def noiseWords : List String :=
  [
   "http", "https", "www", "com", "org", "net",
   "io", "co", "uk", "us"
  ]

def alwaysKeepWords : List String :=
  [
   "test", "testing", "validation", "fail", "failure", "error",
   "bug", "issue", "bot", "conversational", "conversation"
  ]


/-- The always-keep whitelist inlined in `extract_keywords`. -/
def alwaysKeepList : List String :=
  ["test", "testing", "validation", "fail", "failure", "error",
   "bug", "issue", "bot", "conversational", "conversation"]

/-- `SimilarityAnalyzer.extract_keywords`: tokens of the normalized text
that survive the stop-word / length / noise filters and are technical
terms, length ≥ 3, or whitelisted. -/
def extract_keywords (text : String) : List String :=
  (pySplit (preprocess_text text)).filter fun word =>
    decide (¬ (word ∈ stopWords ∨ word.length < 2) ∧
            word ∉ noiseWords ∧
            (word ∈ technicalTerms ∨ 3 ≤ word.length ∨ word ∈ alwaysKeepList))

/-- Python `str.isalnum()`: non-empty and all characters alphanumeric. -/
def pyIsAlnum (t : String) : Bool := !t.data.isEmpty && t.data.all Char.isAlphanum

/-- Subject terms contributed by the token at position `i` (the unigram
and adjacent bigrams around head terms). -/
def subjectTermsAt (tokens : List String) (i : Nat) (tok : String) : List String :=
  (if tok ∈ headTerms then
     [tok] ++
     (match tokens[i+1]? with | some nxt => [tok ++ " " ++ nxt] | none => []) ++
     (if 1 ≤ i then
        (match tokens[i-1]? with | some prv => [prv ++ " " ++ tok] | none => [])
      else [])
   else []) ++
  (match tokens[i+1]? with
   | some nxt => if nxt ∈ headTerms then [tok ++ " " ++ nxt] else []
   | none => [])

/-- `SimilarityAnalyzer.extract_subject_terms`: head-anchored unigrams and
bigrams, known phrases occurring as substrings, and a fallback of long
alphanumeric/hyphenated non-stop-word tokens. -/
def extract_subject_terms (text : String) : Finset String :=
  let processed := preprocess_text text
  let tokens := pySplit processed
  let anchored := tokens.enum.flatMap fun p => subjectTermsAt tokens p.1 p.2
  let phraseHits := subjectPhrases.filter fun ph => strContainsSub processed ph
  let fallback := tokens.filter fun t =>
    decide ((t.data.contains '-' ∨ pyIsAlnum t) ∧ 3 < t.length ∧ t ∉ stopWords)
  (anchored ++ phraseHits ++ fallback).toFinset

/-- Data class `JIRATicket`. -/
structure JIRATicket where
  key : String
  summary : String
  description : String
  issue_type : String
  priority : String
  status : String
  assignee : String
  reporter : String
  created : String
  updated : String
  labels : List String
  components : List String
  project : String
  escalation_weightage : Option String := none
deriving DecidableEq

/-- Python guarded division `i / u if u > 0 else 0.0`. -/
def fracOf (i u : ℕ) : ℚ := if 0 < u then (i : ℚ) / (u : ℚ) else 0

/-- Overlap ratio `|a ∩ b| / |a ∪ b|` (0 when the union is empty), the
pattern used for the subject, summary, tech and jaccard similarities. -/
def overlapRat (a b : Finset String) : ℚ := fracOf (a ∩ b).card (a ∪ b).card

/-- The component/label ratio `|a ∩ b| / max(|a|, |b|, 1)`. -/
def capRat (a b : Finset String) : ℚ :=
  ((a ∩ b).card : ℚ) / ((max a.card (max b.card 1) : ℕ) : ℚ)

/-- Python `1.0 if x == y else 0.0`. -/
def eqInd (x y : String) : ℚ := if x = y then 1 else 0

/-- Python `round(q, 6)` (round to six decimal places). -/
def round6 (q : ℚ) : ℚ := ((round (q * 1000000) : ℤ) : ℚ) / 1000000

/-- `SimilarityAnalyzer.calculate_similarity`. -/
def calculate_similarity (ticket1 ticket2 : JIRATicket) : ℚ :=
  let summary1_keywords := (extract_keywords ticket1.summary).toFinset
  let desc1_keywords := (extract_keywords ticket1.description).toFinset
  let summary2_keywords := (extract_keywords ticket2.summary).toFinset
  let desc2_keywords := (extract_keywords ticket2.description).toFinset
  let keywords1 := summary1_keywords ∪ desc1_keywords
  let keywords2 := summary2_keywords ∪ desc2_keywords
  if keywords1 = ∅ ∧ keywords2 = ∅ then 0
  else
    let subject_similarity :=
      overlapRat (extract_subject_terms ticket1.summary) (extract_subject_terms ticket2.summary)
    let summary_similarity := overlapRat summary1_keywords summary2_keywords
    let tech_similarity :=
      overlapRat (keywords1.filter (· ∈ technicalTerms)) (keywords2.filter (· ∈ technicalTerms))
    let jaccard_similarity := overlapRat keywords1 keywords2
    let type_similarity := eqInd ticket1.issue_type ticket2.issue_type
    let component_similarity := capRat ticket1.components.toFinset ticket2.components.toFinset
    let priority_similarity := eqInd ticket1.priority ticket2.priority
    let label_similarity := capRat ticket1.labels.toFinset ticket2.labels.toFinset
    let project_similarity := eqInd ticket1.project ticket2.project
    let final :=
      subject_similarity * 0.5 + summary_similarity * 0.35 +
      tech_similarity * 0.1 + jaccard_similarity * 0.05 +
      type_similarity * 0 + component_similarity * 0 +
      priority_similarity * 0 + label_similarity * 0 + project_similarity * 0
    let len1 := ticket1.summary.length
    let len2 := ticket2.summary.length
    let length_similarity : ℚ := 1 - |(len1 : ℚ) - (len2 : ℚ)| / ((max len1 (max len2 1) : ℕ) : ℚ)
    let final2 := if 0.8 < length_similarity then final + 0.01 else final
    max 0 (round6 final2)

/-- `SimilarityAnalyzer.calculate_content_similarity`: the content-only
score (no metadata terms, no length bonus, no lower clamp). -/
def calculate_content_similarity (ticket1 ticket2 : JIRATicket) : ℚ :=
  let summary1_keywords := (extract_keywords ticket1.summary).toFinset
  let desc1_keywords := (extract_keywords ticket1.description).toFinset
  let summary2_keywords := (extract_keywords ticket2.summary).toFinset
  let desc2_keywords := (extract_keywords ticket2.description).toFinset
  let keywords1 := summary1_keywords ∪ desc1_keywords
  let keywords2 := summary2_keywords ∪ desc2_keywords
  if keywords1 = ∅ ∧ keywords2 = ∅ then 0
  else
    let summary_similarity := overlapRat summary1_keywords summary2_keywords
    let subject_similarity :=
      overlapRat (extract_subject_terms ticket1.summary) (extract_subject_terms ticket2.summary)
    let tech_similarity :=
      overlapRat (keywords1.filter (· ∈ technicalTerms)) (keywords2.filter (· ∈ technicalTerms))
    let jaccard_similarity := overlapRat keywords1 keywords2
    round6 (subject_similarity * 0.5 + summary_similarity * 0.35 +
            tech_similarity * 0.1 + jaccard_similarity * 0.05)


/-- Result record of `extract_fix_suggestions`. -/
structure FixSuggestions where
  has_fix : Bool
  fix_type : Option String
  suggested_solution : Option String
  workaround : Option String
  root_cause : Option String
  applicable : Bool
  confidence : ℚ
deriving DecidableEq

/-- `extract_context`: the ±100-character window around the first
occurrence of `keyword`, newlines replaced and whitespace re-joined. -/
def extract_context (text keyword : String) : String :=
  match findSub keyword.data text.data with
  | none => ""
  | some pos =>
    let start := pos - 100
    let stop := min text.data.length (pos + keyword.data.length + 100)
    let ctx := (text.data.take stop).drop start
    let ctx2 := ctx.map fun c => if c = '\n' ∨ c = '\r' then ' ' else c
    String.mk (joinSpaces (splitChunks ctx2))

/-- The per-category keyword scan of `extract_fix_suggestions`: each
present keyword overwrites the field, so the last present keyword of the
list wins. -/
def lastContextMatch (text : String) (kws : List String) : Option String :=
  kws.foldl (fun acc kw => if strContainsSub text kw then some (extract_context text kw) else acc)
    none

/-- Technology keywords of `has_common_technology`. -/
def techKeywords : List String :=
  ["dialoggpt", "chunks", "searchai", "orchestration", "embedding", "vector", "generation"]

/-- Problem-pattern phrases of `has_similar_problem_patterns`. -/
def problemPatternsList : List String :=
  ["not getting", "not generated", "failed", "error", "intermittent",
   "timeout", "slow", "hanging", "broken", "not working"]

/-- `has_common_technology`: the two tickets share a technology keyword
as a substring of summary+description. -/
def has_common_technology (ticket1 ticket2 : JIRATicket) : Bool :=
  let text1 := lowerStr (ticket1.summary ++ " " ++ ticket1.description)
  let text2 := lowerStr (ticket2.summary ++ " " ++ ticket2.description)
  techKeywords.any fun kw => strContainsSub text1 kw && strContainsSub text2 kw

/-- `has_similar_problem_patterns`: at least two shared problem-pattern
phrases. -/
def has_similar_problem_patterns (ticket1 ticket2 : JIRATicket) : Bool :=
  let text1 := lowerStr (ticket1.summary ++ " " ++ ticket1.description)
  let text2 := lowerStr (ticket2.summary ++ " " ++ ticket2.description)
  decide (2 ≤ problemPatternsList.countP fun p => strContainsSub text1 p && strContainsSub text2 p)

/-- `JIRASimilarityTool.check_applicability`. -/
def check_applicability (candidate target : JIRATicket) : Bool :=
  has_common_technology candidate target || has_similar_problem_patterns candidate target

/-- `JIRASimilarityTool.extract_fix_suggestions`. -/
def extract_fix_suggestions (candidate target : JIRATicket) : FixSuggestions :=
  let base : FixSuggestions :=
    { has_fix := false
      fix_type := none
      suggested_solution := none
      workaround := none
      root_cause := none
      applicable := false
      confidence := 0 }
  if lowerStr candidate.status ∈ ["closed", "resolved", "done", "successfully deployed"] then
    let description_text := lowerStr candidate.description
    let applicable := check_applicability candidate target
    { has_fix := true
      fix_type := some "resolved"
      suggested_solution :=
        lastContextMatch description_text ["solution", "resolution", "fix", "resolve", "address"]
      workaround :=
        lastContextMatch description_text
          ["workaround", "temporary", "interim", "bypass", "alternative"]
      root_cause :=
        lastContextMatch description_text ["root cause", "cause", "reason", "due to", "because"]
      applicable := applicable
      confidence := min 0.9 (0.5 + (if applicable then (1 : ℚ) else 0) * 0.4) }
  else if lowerStr candidate.status ∈ ["open", "in progress", "ready for qa"] then
    let description_text := lowerStr candidate.description
    if ["workaround", "temporary", "interim", "bypass"].any
        (fun w => strContainsSub description_text w) then
      { base with
        has_fix := true
        fix_type := some "workaround"
        workaround := some (extract_context description_text "workaround")
        applicable := check_applicability candidate target
        confidence := 0.6 }
    else base
  else base

/-- One dict entry of the ranked result list built by
`analyze_similarity`. -/
structure ResultEntry where
  key : String
  summary : String
  issue_type : String
  priority : String
  status : String
  similarity_score : ℚ
  url : String
  fix_suggestions : FixSuggestions
  description : String
  assignee : String
  reporter : String
  created : String
  updated : String
deriving DecidableEq

/-- The result dict appended for a qualifying candidate. -/
def mkEntry (jiraUrl : String) (target cand : JIRATicket) (score : ℚ) : ResultEntry :=
  { key := cand.key
    summary := cand.summary
    issue_type := cand.issue_type
    priority := cand.priority
    status := cand.status
    similarity_score := score
    url := jiraUrl ++ "/browse/" ++ cand.key
    fix_suggestions := extract_fix_suggestions cand target
    description := cand.description
    assignee := cand.assignee
    reporter := cand.reporter
    created := cand.created
    updated := cand.updated }

/-- Descending comparison on `similarity_score` used by the ranked sort
(Python stable `sort(key=score, reverse=True)`). -/
def entryLe (a b : ResultEntry) : Bool := decide (b.similarity_score ≤ a.similarity_score)

/-- One step of the key-deduplicating merge, `if t.key not in unique_map:
unique_map[t.key] = t` over an insertion-ordered dict. -/
def insertUnique (m : List JIRATicket) (t : JIRATicket) : List JIRATicket :=
  if m.any (fun u => u.key == t.key) then m else m ++ [t]

/-- The key→ticket merge of all collected candidates, as the
insertion-ordered list of the dict's values. -/
def dedupByKey (ts : List JIRATicket) : List JIRATicket := ts.foldl insertUnique []

/-- The gated candidate pool: deduplicated candidates whose subject terms
meet the target's (`analyze_similarity`, candidate merge plus
subject-overlap filter). -/
def gatedPool (target : JIRATicket) (all_candidates : List JIRATicket) : List JIRATicket :=
  (dedupByKey all_candidates).filter fun t =>
    decide (¬ (extract_subject_terms t.summary ∩ extract_subject_terms target.summary) = ∅)

/-- `JIRASimilarityTool.analyze_similarity`, modelled from the point where
the tickets collected across all planned search queries are in hand
(`all_candidates`); `jiraUrl` is `self.config['jira_url']`. -/
def analyze_similarity (jiraUrl : String) (target : JIRATicket)
    (all_candidates : List JIRATicket) (threshold : ℚ) (max_results : ℕ) : List ResultEntry :=
  let filtered_candidates := gatedPool target all_candidates
  let similar := filtered_candidates.filterMap fun cand =>
    if cand.key = target.key then none
    else
      let score := calculate_similarity target cand
      if threshold ≤ score then some (mkEntry jiraUrl target cand score) else none
  let similar := (similar.mergeSort entryLe).take max_results
  if similar = [] ∧ ¬ filtered_candidates = [] then
    let fallback_threshold := max 0.1 (threshold - 0.1)
    let retry := filtered_candidates.filterMap fun cand =>
      if cand.key = target.key then none
      else
        let score := calculate_similarity target cand
        if fallback_threshold ≤ score then some (mkEntry jiraUrl target cand score) else none
    ((retry).mergeSort entryLe).take max_results
  else similar

/-- The candidates of a pool that qualify at a threshold, as result
entries (the body of either scoring pass of `analyze_similarity`). -/
def qualifyingEntries (jiraUrl : String) (target : JIRATicket)
    (pool : List JIRATicket) (threshold : ℚ) : List ResultEntry :=
  pool.filterMap fun cand =>
    if cand.key = target.key then none
    else if threshold ≤ calculate_similarity target cand then
      some (mkEntry jiraUrl target cand (calculate_similarity target cand))
    else none

/-- Qualifying entries sorted by score descending and truncated to
`max_results`. -/
def rankedEntries (jiraUrl : String) (target : JIRATicket)
    (pool : List JIRATicket) (threshold : ℚ) (max_results : ℕ) : List ResultEntry :=
  ((qualifyingEntries jiraUrl target pool threshold).mergeSort entryLe).take max_results

/-- The documented weighted combination of the four overlaps,
`0.5*subject + 0.35*summary + 0.10*tech + 0.05*jaccard`, written from the
specification text for comparison with the source formula. -/
def specCombination (a b : JIRATicket) : ℚ :=
  let keywordsA := (extract_keywords a.summary).toFinset ∪ (extract_keywords a.description).toFinset
  let keywordsB := (extract_keywords b.summary).toFinset ∪ (extract_keywords b.description).toFinset
  let subject_sim := overlapRat (extract_subject_terms a.summary) (extract_subject_terms b.summary)
  let summary_sim := overlapRat (extract_keywords a.summary).toFinset (extract_keywords b.summary).toFinset
  let tech_sim :=
    overlapRat (keywordsA.filter (· ∈ technicalTerms)) (keywordsB.filter (· ∈ technicalTerms))
  let jaccard_sim := overlapRat keywordsA keywordsB
  0.5 * subject_sim + 0.35 * summary_sim + 0.10 * tech_sim + 0.05 * jaccard_sim

/-- The summary-length similarity of the bonus rule. -/
def lengthSimilarity (a b : JIRATicket) : ℚ :=
  1 - |(a.summary.length : ℚ) - (b.summary.length : ℚ)| /
      ((max a.summary.length (max b.summary.length 1) : ℕ) : ℚ)

/-- The flat +0.01 summary-length bonus. -/
def lengthBonus (a b : JIRATicket) : ℚ := if 0.8 < lengthSimilarity a b then 0.01 else 0

/-- The combined keyword set `summary_keywords ∪ description_keywords` of
one ticket, as formed inside both scoring functions. -/
def combinedKeywords (t : JIRATicket) : Finset String :=
  (extract_keywords t.summary).toFinset ∪ (extract_keywords t.description).toFinset

/-- Fixture ticket for the concrete check instances. -/
def fxt (k s : String) : JIRATicket :=
  { key := k
    summary := s
    description := ""
    issue_type := "Bug"
    priority := "P1"
    status := "Open"
    assignee := ""
    reporter := ""
    created := ""
    updated := ""
    labels := []
    components := []
    project := "PLAT" }

/-- Fixture ticket agreeing with `fxt k s` on key, summary and
description but differing in every metadata field. -/
def fxtMeta (k s : String) : JIRATicket :=
  { key := k
    summary := s
    description := ""
    issue_type := "Task"
    priority := "P3"
    status := "Closed"
    assignee := "someone"
    reporter := "someone"
    created := "2024"
    updated := "2024"
    labels := ["ui"]
    components := ["web"]
    project := "XOP" }

theorem fracOf_nonneg (i u : ℕ) : 0 ≤ fracOf i u := by
  unfold fracOf
  split
  · positivity
  · exact le_refl 0

theorem fracOf_le_one {i u : ℕ} (h : i ≤ u) : fracOf i u ≤ 1 := by
  unfold fracOf
  split
  · rename_i hu
    rw [div_le_one (by exact_mod_cast hu)]
    exact_mod_cast h
  · exact zero_le_one

theorem overlapRat_nonneg (a b : Finset String) : 0 ≤ overlapRat a b :=
  fracOf_nonneg _ _

theorem overlapRat_le_one (a b : Finset String) : overlapRat a b ≤ 1 :=
  fracOf_le_one (Finset.card_le_card (Finset.inter_subset_union))

theorem overlapRat_comm (a b : Finset String) : overlapRat a b = overlapRat b a := by
  unfold overlapRat
  rw [Finset.inter_comm, Finset.union_comm]

theorem round_rat_mono {x y : ℚ} (h : x ≤ y) : round x ≤ round y := by
  rw [round_eq, round_eq]
  exact Int.floor_le_floor (by linarith)

theorem round6_mono {x y : ℚ} (h : x ≤ y) : round6 x ≤ round6 y := by
  unfold round6
  rw [div_le_div_iff_of_pos_right (by norm_num)]
  exact_mod_cast round_rat_mono (by linarith)

theorem round6_add_centi (x : ℚ) : round6 (x + 1/100) = round6 x + 1/100 := by
  unfold round6
  have h : (x + 1/100) * 1000000 = x * 1000000 + ((10000 : ℤ) : ℚ) := by
    push_cast
    ring
  rw [h, round_add_int]
  push_cast
  ring

theorem round6_nonneg {x : ℚ} (h : 0 ≤ x) : 0 ≤ round6 x := by
  have h0 : round6 0 = 0 := by
    unfold round6
    norm_num
  calc (0 : ℚ) = round6 0 := h0.symm
    _ ≤ round6 x := round6_mono h

theorem calculate_similarity_closed (t1 t2 : JIRATicket) :
    calculate_similarity t1 t2 =
      if combinedKeywords t1 = ∅ ∧ combinedKeywords t2 = ∅ then 0
      else max 0 (round6 (specCombination t1 t2 + lengthBonus t1 t2)) := by
  simp only [calculate_similarity, specCombination, combinedKeywords, lengthBonus,
    lengthSimilarity]
  split_ifs with h1 h2
  · rfl
  · congr 1
    congr 1
    ring
  · congr 1
    congr 1
    ring

theorem calculate_content_similarity_closed (t1 t2 : JIRATicket) :
    calculate_content_similarity t1 t2 =
      if combinedKeywords t1 = ∅ ∧ combinedKeywords t2 = ∅ then 0
      else round6 (specCombination t1 t2) := by
  simp only [calculate_content_similarity, specCombination, combinedKeywords]
  split_ifs with h1
  · rfl
  · congr 1
    ring

theorem specCombination_comm (a b : JIRATicket) : specCombination a b = specCombination b a := by
  simp only [specCombination]
  rw [overlapRat_comm (extract_subject_terms a.summary),
    overlapRat_comm ((extract_keywords a.summary).toFinset),
    overlapRat_comm (Finset.filter (· ∈ technicalTerms) _),
    overlapRat_comm ((extract_keywords a.summary).toFinset ∪ (extract_keywords a.description).toFinset)]

theorem lengthSimilarity_comm (a b : JIRATicket) : lengthSimilarity a b = lengthSimilarity b a := by
  simp only [lengthSimilarity]
  rw [abs_sub_comm, max_left_comm]

theorem lengthBonus_comm (a b : JIRATicket) : lengthBonus a b = lengthBonus b a := by
  simp only [lengthBonus, lengthSimilarity_comm]

theorem specCombination_nonneg (a b : JIRATicket) : 0 ≤ specCombination a b := by
  simp only [specCombination]
  have h1 := overlapRat_nonneg (extract_subject_terms a.summary) (extract_subject_terms b.summary)
  have h2 := overlapRat_nonneg ((extract_keywords a.summary).toFinset) ((extract_keywords b.summary).toFinset)
  have h3 := overlapRat_nonneg
    (((extract_keywords a.summary).toFinset ∪ (extract_keywords a.description).toFinset).filter (· ∈ technicalTerms))
    (((extract_keywords b.summary).toFinset ∪ (extract_keywords b.description).toFinset).filter (· ∈ technicalTerms))
  have h4 := overlapRat_nonneg
    ((extract_keywords a.summary).toFinset ∪ (extract_keywords a.description).toFinset)
    ((extract_keywords b.summary).toFinset ∪ (extract_keywords b.description).toFinset)
  linarith

theorem specCombination_le_one (a b : JIRATicket) : specCombination a b ≤ 1 := by
  simp only [specCombination]
  have h1 := overlapRat_le_one (extract_subject_terms a.summary) (extract_subject_terms b.summary)
  have h2 := overlapRat_le_one ((extract_keywords a.summary).toFinset) ((extract_keywords b.summary).toFinset)
  have h3 := overlapRat_le_one
    (((extract_keywords a.summary).toFinset ∪ (extract_keywords a.description).toFinset).filter (· ∈ technicalTerms))
    (((extract_keywords b.summary).toFinset ∪ (extract_keywords b.description).toFinset).filter (· ∈ technicalTerms))
  have h4 := overlapRat_le_one
    ((extract_keywords a.summary).toFinset ∪ (extract_keywords a.description).toFinset)
    ((extract_keywords b.summary).toFinset ∪ (extract_keywords b.description).toFinset)
  have g1 := overlapRat_nonneg (extract_subject_terms a.summary) (extract_subject_terms b.summary)
  have g2 := overlapRat_nonneg ((extract_keywords a.summary).toFinset) ((extract_keywords b.summary).toFinset)
  have g3 := overlapRat_nonneg
    (((extract_keywords a.summary).toFinset ∪ (extract_keywords a.description).toFinset).filter (· ∈ technicalTerms))
    (((extract_keywords b.summary).toFinset ∪ (extract_keywords b.description).toFinset).filter (· ∈ technicalTerms))
  have g4 := overlapRat_nonneg
    ((extract_keywords a.summary).toFinset ∪ (extract_keywords a.description).toFinset)
    ((extract_keywords b.summary).toFinset ∪ (extract_keywords b.description).toFinset)
  linarith

theorem lengthBonus_nonneg (a b : JIRATicket) : 0 ≤ lengthBonus a b := by
  unfold lengthBonus
  split
  · norm_num
  · exact le_refl 0

theorem lengthBonus_le_centi (a b : JIRATicket) : lengthBonus a b ≤ 1/100 := by
  unfold lengthBonus
  split
  · norm_num
  · norm_num

/-- C3: for all tickets A and B, `calculate_similarity A B =
calculate_similarity B A`: the score is fully symmetric in its two ticket
arguments, including the summary-length bonus term. -/
theorem calculate_similarity_symm (t1 t2 : JIRATicket) :
    calculate_similarity t1 t2 = calculate_similarity t2 t1 := by
  rw [calculate_similarity_closed, calculate_similarity_closed]
  apply if_congr and_comm rfl
  rw [specCombination_comm, lengthBonus_comm]

set_option allowUnsafeReducibility true in
attribute [semireducible] Rat.mul Rat.inv Rat.add Rat.sub Rat.ofScientific splitChunks replaceAll

theorem round6_of_one_oh_one : round6 (1.01 : ℚ) = 1.01 := by decide

/-- C4 (counterexample): at the concrete ticket pair with summaries
"aa" (both combined keyword sets empty while the length bonus fires) the
score returned by `calculate_similarity` is not the clamped, rounded
weighted combination plus bonus: the early return yields 0.0 while the
claimed formula yields 0.01. -/
theorem score_formula_counterexample :
    calculate_similarity (fxt "A" "aa") (fxt "B" "aa") ≠
      max 0 (round6 (specCombination (fxt "A" "aa") (fxt "B" "aa") +
        lengthBonus (fxt "A" "aa") (fxt "B" "aa"))) := by
  set_option maxRecDepth 10000 in decide

/-- C4 (amended): `calculate_similarity` always lies in [0.0, 1.01]
(clamped below at 0.0 after rounding to 6 decimal places, not clamped
above), and whenever at least one combined keyword set is non-empty it
equals the clamped rounding of the weighted combination
`0.5*subject + 0.35*summary + 0.10*tech + 0.05*jaccard` plus the length
bonus; when both keyword sets are empty it returns 0.0 instead. -/
theorem score_range_and_formula (t1 t2 : JIRATicket) :
    0 ≤ calculate_similarity t1 t2 ∧ calculate_similarity t1 t2 ≤ 1.01 ∧
      (¬ (combinedKeywords t1 = ∅ ∧ combinedKeywords t2 = ∅) →
        calculate_similarity t1 t2 =
          max 0 (round6 (specCombination t1 t2 + lengthBonus t1 t2))) := by
  rw [calculate_similarity_closed]
  by_cases h : combinedKeywords t1 = ∅ ∧ combinedKeywords t2 = ∅
  · rw [if_pos h]
    refine ⟨le_refl 0, by norm_num, fun hc => absurd h hc⟩
  · rw [if_neg h]
    refine ⟨le_max_left 0 _, ?_, fun _ => rfl⟩
    apply max_le (by norm_num)
    calc round6 (specCombination t1 t2 + lengthBonus t1 t2)
        ≤ round6 (1.01 : ℚ) := by
          apply round6_mono
          have h1 := specCombination_le_one t1 t2
          have h2 := lengthBonus_le_centi t1 t2
          have : (1.01 : ℚ) = 1 + 1/100 := by norm_num
          linarith
      _ = 1.01 := round6_of_one_oh_one

/-- C4 (witness): a concrete pair with non-empty keyword sets for which
the range and formula theorem applies non-vacuously. -/
theorem score_range_and_formula_witness :
    ¬ (combinedKeywords (fxt "A" "node") = ∅ ∧ combinedKeywords (fxt "B" "node") = ∅) ∧
      calculate_similarity (fxt "A" "node") (fxt "B" "node") =
        max 0 (round6 (specCombination (fxt "A" "node") (fxt "B" "node") +
          lengthBonus (fxt "A" "node") (fxt "B" "node"))) :=
  ⟨by set_option maxRecDepth 10000 in decide,
   (score_range_and_formula (fxt "A" "node") (fxt "B" "node")).2.2
     (by set_option maxRecDepth 10000 in decide)⟩

/-- C8: the metadata similarities do not affect the final score: for any
two ticket pairs that agree on key, summary and description (so the
issue_type, priority, components, labels and project fields may differ
arbitrarily), `calculate_similarity` is unchanged. -/
theorem metadata_does_not_affect_score (A B A2 B2 : JIRATicket)
    (hAk : A2.key = A.key) (hAs : A2.summary = A.summary)
    (hAd : A2.description = A.description)
    (hBk : B2.key = B.key) (hBs : B2.summary = B.summary)
    (hBd : B2.description = B.description) :
    calculate_similarity A2 B2 = calculate_similarity A B := by
  rw [calculate_similarity_closed, calculate_similarity_closed]
  simp only [combinedKeywords, specCombination, lengthBonus, lengthSimilarity,
    hAs, hAd, hBs, hBd]

/-- C8 (witness): changing every metadata field of both tickets of a
concrete pair leaves the score unchanged. -/
theorem metadata_does_not_affect_score_witness :
    (fxtMeta "A" "node").key = (fxt "A" "node").key ∧
    (fxtMeta "A" "node").issue_type ≠ (fxt "A" "node").issue_type ∧
    calculate_similarity (fxtMeta "A" "node") (fxtMeta "B" "node") =
      calculate_similarity (fxt "A" "node") (fxt "B" "node") :=
  ⟨rfl, by decide,
   metadata_does_not_affect_score (fxt "A" "node") (fxt "B" "node")
     (fxtMeta "A" "node") (fxtMeta "B" "node") rfl rfl rfl rfl rfl rfl⟩

/-- C9: for every pair of tickets whose summaries and descriptions are
all empty (so both combined keyword sets are empty),
`calculate_similarity` returns exactly 0.0, before any weighted term or
length bonus is applied. -/
theorem empty_tickets_score_zero (t1 t2 : JIRATicket)
    (h1 : t1.summary = "") (h2 : t1.description = "")
    (h3 : t2.summary = "") (h4 : t2.description = "") :
    calculate_similarity t1 t2 = 0 := by
  have e : extract_keywords "" = [] := rfl
  rw [calculate_similarity_closed, if_pos]
  constructor
  · simp [combinedKeywords, h1, h2, e]
  · simp [combinedKeywords, h3, h4, e]

/-- C9 (witness): the concrete all-empty pair scores 0. -/
theorem empty_tickets_score_zero_witness :
    calculate_similarity (fxt "E1" "") (fxt "E2" "") = 0 :=
  empty_tickets_score_zero (fxt "E1" "") (fxt "E2" "") rfl rfl rfl rfl

/-- C10 (counterexample): at the concrete pair with summaries "aa", the
length similarity exceeds 0.8 yet `calculate_similarity` is not
`calculate_content_similarity + 0.01` (both return 0.0 through the
empty-keyword early return), refuting the claimed unconditional
bonus relation. -/
theorem content_bonus_counterexample :
    0.8 < lengthSimilarity (fxt "A" "aa") (fxt "B" "aa") ∧
    calculate_similarity (fxt "A" "aa") (fxt "B" "aa") ≠
      calculate_content_similarity (fxt "A" "aa") (fxt "B" "aa") + 0.01 := by
  constructor
  · set_option maxRecDepth 10000 in decide
  · set_option maxRecDepth 10000 in decide

/-- C10 (amended): `calculate_content_similarity` never exceeds
`calculate_similarity`; when at least one combined keyword set is
non-empty, the full score is the content score plus exactly 0.01 if the
summary-length similarity exceeds 0.8 and the content score otherwise;
when both keyword sets are empty both scores are 0.0. -/
theorem score_vs_content_score (t1 t2 : JIRATicket) :
    calculate_content_similarity t1 t2 ≤ calculate_similarity t1 t2 ∧
    (¬ (combinedKeywords t1 = ∅ ∧ combinedKeywords t2 = ∅) →
      calculate_similarity t1 t2 =
        (if 0.8 < lengthSimilarity t1 t2 then calculate_content_similarity t1 t2 + 0.01
         else calculate_content_similarity t1 t2)) ∧
    ((combinedKeywords t1 = ∅ ∧ combinedKeywords t2 = ∅) →
      calculate_similarity t1 t2 = 0 ∧ calculate_content_similarity t1 t2 = 0) := by
  rw [calculate_similarity_closed, calculate_content_similarity_closed]
  by_cases h : combinedKeywords t1 = ∅ ∧ combinedKeywords t2 = ∅
  · rw [if_pos h, if_pos h]
    exact ⟨le_refl 0, fun hc => absurd h hc, fun _ => ⟨rfl, rfl⟩⟩
  · rw [if_neg h, if_neg h]
    have hS := round6_nonneg (specCombination_nonneg t1 t2)
    unfold lengthBonus
    split_ifs with hb
    · have hcent : (0.01 : ℚ) = 1/100 := by norm_num
      rw [hcent, round6_add_centi, max_eq_right (by linarith)]
      exact ⟨by linarith, fun _ => rfl, fun hc => absurd hc h⟩
    · rw [add_zero, max_eq_right hS]
      exact ⟨le_refl _, fun _ => rfl, fun hc => absurd hc h⟩

/-- C10 (witness): a concrete pair with non-empty keyword sets for which
the bonus relation applies non-vacuously. -/
theorem score_vs_content_score_witness :
    ¬ (combinedKeywords (fxt "A" "node") = ∅ ∧ combinedKeywords (fxt "B" "node") = ∅) ∧
      calculate_similarity (fxt "A" "node") (fxt "B" "node") =
        (if 0.8 < lengthSimilarity (fxt "A" "node") (fxt "B" "node") then
          calculate_content_similarity (fxt "A" "node") (fxt "B" "node") + 0.01
         else calculate_content_similarity (fxt "A" "node") (fxt "B" "node")) :=
  ⟨by set_option maxRecDepth 10000 in decide,
   (score_vs_content_score (fxt "A" "node") (fxt "B" "node")).2.1
     (by set_option maxRecDepth 10000 in decide)⟩

/-- C7 (counterexample): the whitelisted token "bug" occurs in the
normalized, whitespace-split text "bug", yet `extract_keywords` drops it:
the stop-word filter runs first and "bug" is also a stop word, so the
always-keep whitelist cannot rescue it. -/
theorem whitelist_keep_counterexample :
    "bug" ∈ alwaysKeepList ∧ "bug" ∈ pySplit (preprocess_text "bug") ∧
    "bug" ∉ extract_keywords "bug" := by
  refine ⟨by decide, by decide, by decide⟩

/-- C7 (amended): every whitelist token occurring in the normalized,
whitespace-split input text appears in the returned keyword list,
provided it is not also a stop word (stop-worded whitelist entries such
as "test", "bug", "error" are dropped by the earlier stop-word filter). -/
theorem whitelist_tokens_kept (text w : String) (hw : w ∈ alwaysKeepList)
    (hs : w ∉ stopWords) (ht : w ∈ pySplit (preprocess_text text)) :
    w ∈ extract_keywords text := by
  have hfacts : ∀ v ∈ alwaysKeepList, 2 ≤ v.length ∧ v ∉ noiseWords := by decide
  obtain ⟨hl, hn⟩ := hfacts w hw
  unfold extract_keywords
  rw [List.mem_filter]
  refine ⟨ht, ?_⟩
  rw [decide_eq_true_eq]
  exact ⟨fun hor => hor.elim hs (fun hlt => by omega), hn, Or.inr (Or.inr hw)⟩

/-- C7 (witness): the whitelist token "validation" (not a stop word) is
kept from the concrete text "validation". -/
theorem whitelist_tokens_kept_witness :
    "validation" ∈ alwaysKeepList ∧ "validation" ∉ stopWords ∧
    "validation" ∈ pySplit (preprocess_text "validation") ∧
    "validation" ∈ extract_keywords "validation" :=
  ⟨by decide, by decide, by decide,
   whitelist_tokens_kept "validation" "validation" (by decide) (by decide) (by decide)⟩
theorem foldl_insertUnique_find? (k : String) (ts : List JIRATicket) :
    ∀ acc : List JIRATicket,
      ((ts.foldl insertUnique acc).find? fun u => u.key == k) =
        ((acc.find? fun u => u.key == k).or (ts.find? fun u => u.key == k)) := by
  induction ts with
  | nil => intro acc; simp
  | cons t ts ih =>
    intro acc
    rw [List.foldl_cons, ih]
    by_cases hk : t.key = k
    · rw [List.find?_cons_of_pos _ (by simp [hk])]
      unfold insertUnique
      by_cases ha : acc.any fun u => u.key == t.key
      · rw [if_pos ha]
        have hsome : (acc.find? fun u => u.key == k).isSome := by
          rw [List.find?_isSome]
          obtain ⟨u, hu, hp⟩ := List.any_eq_true.mp ha
          exact ⟨u, hu, by simp only [← hk]; exact hp⟩
        obtain ⟨v, hv⟩ := Option.isSome_iff_exists.mp hsome
        rw [hv]
        rfl
      · rw [if_neg ha]
        have hnone : (acc.find? fun u => u.key == k) = none := by
          rw [List.find?_eq_none]
          intro u hu hp
          apply ha
          rw [List.any_eq_true]
          exact ⟨u, hu, by simp only [hk]; exact hp⟩
        rw [List.find?_append, hnone]
        rw [List.find?_cons_of_pos _ (by simp [hk])]
        simp
    · rw [List.find?_cons_of_neg _ (by simp [hk])]
      unfold insertUnique
      by_cases ha : acc.any fun u => u.key == t.key
      · rw [if_pos ha]
      · rw [if_neg ha, List.find?_append]
        have h1 : (List.find? (fun u => u.key == k) [t]) = none := by
          have hb : (t.key == k) = false := by simp [hk]
          simp [List.find?, hb]
        rw [h1, Option.or_none]

/-- C6 (counterexample): merging the concrete collection
`[fxt "K" "alpha", fxt "K" "beta"]` (same key "K", different summaries)
keeps the FIRST ticket, not the last: the merge is first-write-wins
(`if t.key not in unique_map`), refuting last-write-wins. -/
theorem merge_last_write_counterexample :
    (fxt "K" "alpha").key = (fxt "K" "beta").key ∧
    fxt "K" "alpha" ≠ fxt "K" "beta" ∧
    dedupByKey [fxt "K" "alpha", fxt "K" "beta"] = [fxt "K" "alpha"] := by
  refine ⟨rfl, by decide, by decide⟩

/-- C6 (amended): duplicate keys in the collected candidate sequence are
resolved first-write-wins: for every key, looking the key up in the
merged map yields exactly the first ticket of the collected sequence
with that key. -/
theorem merge_first_write_wins (ts : List JIRATicket) (k : String) :
    ((dedupByKey ts).find? fun u => u.key == k) = (ts.find? fun u => u.key == k) := by
  unfold dedupByKey
  rw [foldl_insertUnique_find?]
  simp
theorem analyze_similarity_eq_ite (u : String) (tg : JIRATicket)
    (cands : List JIRATicket) (θ : ℚ) (n : ℕ) :
    analyze_similarity u tg cands θ n =
      if rankedEntries u tg (gatedPool tg cands) θ n = [] ∧ ¬ gatedPool tg cands = [] then
        rankedEntries u tg (gatedPool tg cands) (max 0.1 (θ - 0.1)) n
      else rankedEntries u tg (gatedPool tg cands) θ n := rfl

theorem mem_qualifyingEntries {u : String} {tg : JIRATicket} {pool : List JIRATicket}
    {θ : ℚ} {e : ResultEntry} (h : e ∈ qualifyingEntries u tg pool θ) :
    ∃ cand ∈ pool, cand.key ≠ tg.key ∧ θ ≤ calculate_similarity tg cand ∧
      e = mkEntry u tg cand (calculate_similarity tg cand) := by
  simp only [qualifyingEntries, List.mem_filterMap] at h
  obtain ⟨cand, hc, he⟩ := h
  by_cases h1 : cand.key = tg.key
  · rw [if_pos h1] at he
    cases he
  · rw [if_neg h1] at he
    by_cases h2 : θ ≤ calculate_similarity tg cand
    · rw [if_pos h2] at he
      exact ⟨cand, hc, h1, h2, (Option.some_inj.mp he).symm⟩
    · rw [if_neg h2] at he
      cases he

theorem mem_rankedEntries {u : String} {tg : JIRATicket} {pool : List JIRATicket}
    {θ : ℚ} {n : ℕ} {e : ResultEntry}
    (h : e ∈ rankedEntries u tg pool θ n) : e ∈ qualifyingEntries u tg pool θ := by
  unfold rankedEntries at h
  exact List.mem_mergeSort.mp (List.mem_of_mem_take h)

theorem nodup_keys_filterMap (f : JIRATicket → Option ResultEntry)
    (hf : ∀ a b, f a = some b → b.key = a.key) :
    ∀ pool : List JIRATicket, ((pool.map fun t => t.key).Nodup) →
      (((pool.filterMap f).map fun e => e.key).Nodup)
  | [], _ => by simp
  | c :: cs, h => by
    simp only [List.map_cons, List.nodup_cons] at h
    obtain ⟨hk, hnd⟩ := h
    rw [List.filterMap_cons]
    cases hfc : f c with
    | none => exact nodup_keys_filterMap f hf cs hnd
    | some b =>
      rw [List.map_cons, List.nodup_cons]
      refine ⟨?_, nodup_keys_filterMap f hf cs hnd⟩
      rw [hf c b hfc]
      intro hmem
      rw [List.mem_map] at hmem
      obtain ⟨e, he, hek⟩ := hmem
      rw [List.mem_filterMap] at he
      obtain ⟨a, ha, hfa⟩ := he
      apply hk
      rw [List.mem_map]
      exact ⟨a, ha, by rw [← hf a e hfa, hek]⟩

theorem foldl_insertUnique_keys_nodup (ts : List JIRATicket) :
    ∀ acc : List JIRATicket, ((acc.map fun t => t.key).Nodup) →
      (((ts.foldl insertUnique acc).map fun t => t.key).Nodup) := by
  induction ts with
  | nil => intro acc h; simpa using h
  | cons t ts ih =>
    intro acc h
    rw [List.foldl_cons]
    apply ih
    unfold insertUnique
    split
    · exact h
    · rename_i ha
      rw [List.map_append, List.nodup_append]
      refine ⟨h, by simp, ?_⟩
      intro x hx hy
      simp only [List.map_cons, List.map_nil, List.mem_cons, List.not_mem_nil, or_false] at hy
      rw [List.mem_map] at hx
      obtain ⟨v, hv, hvx⟩ := hx
      apply ha
      rw [List.any_eq_true]
      exact ⟨v, hv, by rw [beq_iff_eq, hvx, hy]⟩

theorem dedupByKey_keys_nodup (ts : List JIRATicket) :
    ((dedupByKey ts).map fun t => t.key).Nodup := by
  unfold dedupByKey
  exact foldl_insertUnique_keys_nodup ts [] (by simp)

theorem gatedPool_keys_nodup (tg : JIRATicket) (cands : List JIRATicket) :
    ((gatedPool tg cands).map fun t => t.key).Nodup := by
  unfold gatedPool
  exact (dedupByKey_keys_nodup cands).sublist ((List.filter_sublist _).map _)

theorem entryLe_trans (a b c : ResultEntry) (hab : entryLe a b) (hbc : entryLe b c) :
    entryLe a c := by
  simp only [entryLe, decide_eq_true_eq] at hab hbc ⊢
  exact le_trans hbc hab

theorem entryLe_total (a b : ResultEntry) : entryLe a b || entryLe b a := by
  simp only [entryLe]
  rcases le_total a.similarity_score b.similarity_score with h | h
  · simp [h]
  · simp [h]

theorem rankedEntries_sorted (u : String) (tg : JIRATicket) (pool : List JIRATicket)
    (θ : ℚ) (n : ℕ) :
    (rankedEntries u tg pool θ n).Pairwise
      (fun a b => b.similarity_score ≤ a.similarity_score) := by
  unfold rankedEntries
  have hs : ((qualifyingEntries u tg pool θ).mergeSort entryLe).Pairwise
      (fun a b => entryLe a b) :=
    List.sorted_mergeSort entryLe_trans entryLe_total _
  have ht := hs.sublist (List.take_sublist n _)
  exact ht.imp fun hab => by simpa [entryLe, decide_eq_true_eq] using hab

theorem rankedEntries_length_le (u : String) (tg : JIRATicket) (pool : List JIRATicket)
    (θ : ℚ) (n : ℕ) : (rankedEntries u tg pool θ n).length ≤ n := by
  unfold rankedEntries
  exact List.length_take_le _ _

theorem rankedEntries_key_ne {u : String} {tg : JIRATicket} {pool : List JIRATicket}
    {θ : ℚ} {n : ℕ} {e : ResultEntry}
    (h : e ∈ rankedEntries u tg pool θ n) : e.key ≠ tg.key := by
  obtain ⟨cand, _, hkey, _, he⟩ := mem_qualifyingEntries (mem_rankedEntries h)
  rw [he]
  exact hkey

theorem rankedEntries_keys_nodup (u : String) (tg : JIRATicket) (pool : List JIRATicket)
    (θ : ℚ) (n : ℕ) (hp : (pool.map fun t => t.key).Nodup) :
    ((rankedEntries u tg pool θ n).map fun e => e.key).Nodup := by
  have hq : ((qualifyingEntries u tg pool θ).map fun e => e.key).Nodup := by
    unfold qualifyingEntries
    apply nodup_keys_filterMap _ ?_ _ hp
    intro a b hab
    by_cases h1 : a.key = tg.key
    · rw [if_pos h1] at hab
      cases hab
    · rw [if_neg h1] at hab
      by_cases h2 : θ ≤ calculate_similarity tg a
      · rw [if_pos h2] at hab
        rw [← Option.some_inj.mp hab]
        rfl
      · rw [if_neg h2] at hab
        cases hab
  have hperm : List.Perm ((qualifyingEntries u tg pool θ).mergeSort entryLe)
      (qualifyingEntries u tg pool θ) :=
    List.mergeSort_perm _ _
  have hms : (((qualifyingEntries u tg pool θ).mergeSort entryLe).map fun e => e.key).Nodup :=
    ((hperm.map _).nodup_iff).mpr hq
  unfold rankedEntries
  exact hms.sublist ((List.take_sublist n _).map _)

/-- C5: the ranked result list of `analyze_similarity` never contains the
target's key, never contains two entries with the same key, has length at
most `max_results`, and is sorted by `similarity_score` descending. -/
theorem analyze_results_wellformed (u : String) (tg : JIRATicket)
    (cands : List JIRATicket) (θ : ℚ) (n : ℕ) :
    (∀ e ∈ analyze_similarity u tg cands θ n, e.key ≠ tg.key) ∧
    ((analyze_similarity u tg cands θ n).map fun e => e.key).Nodup ∧
    (analyze_similarity u tg cands θ n).length ≤ n ∧
    (analyze_similarity u tg cands θ n).Pairwise
      (fun a b => b.similarity_score ≤ a.similarity_score) := by
  rw [analyze_similarity_eq_ite]
  split
  · exact ⟨fun e he => rankedEntries_key_ne he,
      rankedEntries_keys_nodup _ _ _ _ _ (gatedPool_keys_nodup tg cands),
      rankedEntries_length_le _ _ _ _ _,
      rankedEntries_sorted _ _ _ _ _⟩
  · exact ⟨fun e he => rankedEntries_key_ne he,
      rankedEntries_keys_nodup _ _ _ _ _ (gatedPool_keys_nodup tg cands),
      rankedEntries_length_le _ _ _ _ _,
      rankedEntries_sorted _ _ _ _ _⟩

/-- C1: the subject-overlap gate is applied before scoring and cannot be
bypassed: if the subject-term sets of the target's and a candidate's
summaries have empty intersection, no entry of the ranked result list can
carry that candidate's summary (in particular the candidate itself never
appears), regardless of thresholds or scores. -/
theorem subject_gate_excludes (u : String) (A B : JIRATicket)
    (cands : List JIRATicket) (θ : ℚ) (n : ℕ)
    (h : extract_subject_terms A.summary ∩ extract_subject_terms B.summary = ∅) :
    ∀ e ∈ analyze_similarity u A cands θ n, e.summary ≠ B.summary := by
  intro e he hsum
  rw [analyze_similarity_eq_ite] at he
  have hq : ∃ θ2, e ∈ qualifyingEntries u A (gatedPool A cands) θ2 := by
    by_cases hcond : rankedEntries u A (gatedPool A cands) θ n = [] ∧ ¬ gatedPool A cands = []
    · rw [if_pos hcond] at he
      exact ⟨_, mem_rankedEntries he⟩
    · rw [if_neg hcond] at he
      exact ⟨_, mem_rankedEntries he⟩
  obtain ⟨θ2, hq⟩ := hq
  obtain ⟨cand, hc, _, _, hee⟩ := mem_qualifyingEntries hq
  unfold gatedPool at hc
  rw [List.mem_filter, decide_eq_true_eq] at hc
  obtain ⟨_, hgate⟩ := hc
  apply hgate
  have hcs : cand.summary = B.summary := by
    have he2 : e.summary = cand.summary := by
      rw [hee]
      rfl
    rw [← he2, hsum]
  rw [hcs, Finset.inter_comm]
  exact h

/-- C1 (witness): for the concrete target with summary "alpha" and
candidate with summary "beta" the subject-term sets are disjoint, and no
entry of the concrete analysis result carries the candidate's summary. -/
theorem subject_gate_excludes_witness :
    extract_subject_terms (fxt "A" "alpha").summary ∩
      extract_subject_terms (fxt "B" "beta").summary = ∅ ∧
    ∀ e ∈ analyze_similarity "u" (fxt "A" "alpha")
        [fxt "B" "beta", fxt "C" "alpha"] 0.2 10,
      e.summary ≠ (fxt "B" "beta").summary :=
  ⟨by decide,
   subject_gate_excludes "u" (fxt "A" "alpha") (fxt "B" "beta")
     [fxt "B" "beta", fxt "C" "alpha"] 0.2 10 (by decide)⟩

/-- C2: if zero candidates qualify at the given threshold while the gated
pool is non-empty, the returned results are exactly one rescoring pass at
threshold `max(0.1, threshold - 0.1)` with the same sort and truncation;
if the gated pool is empty, `analyze_similarity` returns `[]` with no
retry. -/
theorem threshold_fallback_behavior (u : String) (tg : JIRATicket)
    (cands : List JIRATicket) (θ : ℚ) (n : ℕ) :
    (qualifyingEntries u tg (gatedPool tg cands) θ = [] → gatedPool tg cands ≠ [] →
      analyze_similarity u tg cands θ n =
        rankedEntries u tg (gatedPool tg cands) (max 0.1 (θ - 0.1)) n) ∧
    (gatedPool tg cands = [] → analyze_similarity u tg cands θ n = []) := by
  constructor
  · intro h1 h2
    have hr : rankedEntries u tg (gatedPool tg cands) θ n = [] := by
      unfold rankedEntries
      rw [h1]
      simp
    rw [analyze_similarity_eq_ite, if_pos ⟨hr, h2⟩]
  · intro h
    have hq : qualifyingEntries u tg (gatedPool tg cands) θ = [] := by
      unfold qualifyingEntries
      rw [h]
      rfl
    have hr : rankedEntries u tg (gatedPool tg cands) θ n = [] := by
      unfold rankedEntries
      rw [hq]
      simp
    rw [analyze_similarity_eq_ite, if_neg, hr]
    intro hcontra
    exact hcontra.2 h

/-- C2 (witness): a concrete instance where the first pass at threshold
0.95 qualifies nothing, the gated pool is non-empty, and the result is
the fallback pass at threshold 0.85. -/
theorem threshold_fallback_behavior_witness :
    qualifyingEntries "u" (fxt "T" "node") (gatedPool (fxt "T" "node") [fxt "C" "node"]) 0.95
      = [] ∧
    gatedPool (fxt "T" "node") [fxt "C" "node"] ≠ [] ∧
    analyze_similarity "u" (fxt "T" "node") [fxt "C" "node"] 0.95 10 =
      rankedEntries "u" (fxt "T" "node") (gatedPool (fxt "T" "node") [fxt "C" "node"])
        (max 0.1 (0.95 - 0.1)) 10 :=
  ⟨by set_option maxRecDepth 10000 in decide,
   by set_option maxRecDepth 10000 in decide,
   (threshold_fallback_behavior "u" (fxt "T" "node") [fxt "C" "node"] 0.95 10).1
     (by set_option maxRecDepth 10000 in decide)
     (by set_option maxRecDepth 10000 in decide)⟩
